import Mathlib

/-!
Verification of the user-signup/login backend in `src/routes/users.js`.

The file defines a shallow embedding of the canonical (second) route
definitions of `src/routes/users.js`: the passport `LocalStrategy` verify
callback (lines 73-97), `serializeUser`/`deserializeUser` (lines 100-111),
and the `POST /signup` handler (lines 159-194).  The duplicate first half of
the file and the commented-out block are editorial leftovers and are not
modelled.

External collaborators (Node's `timingSafeEqual`, express-validator's
`notEmpty`/`isEmail`/`isInt`, the Prisma store) are modelled by executable
Lean functions that follow their documented semantics.  The credential
hasher `util/scrypt.js` is not present under `src/`, so its two functions
are modelled from the spec (see their doc comments).
-/

namespace NodeMsg

/-- A persisted user record, mirroring the Prisma `user` model as used by
`prisma.user.create` in the signup handler: `name`, `password` (the stored
digest, a byte sequence), `salt` (a byte sequence), `email`, `age`, plus the
`id` assigned at creation. -/
structure User where
  id : Nat
  name : String
  password : List Nat
  salt : List Nat
  email : Option String
  age : Option Int
deriving DecidableEq

/-- The minimal session record built by `passport.serializeUser`
(`{id: user.id, name: user.name}`). -/
structure SessionPrincipal where
  id : Nat
  name : String
deriving DecidableEq

/-- Modelled from the spec: `calcHash(password, salt)` of the missing
`util/scrypt.js` — a deterministic one-way derivation combining password and
salt into a fixed-length digest (spec section 4.1).  Modelled as a 64-byte
digest computed from the password code points and the salt bytes. -/
def calcHash (password : String) (salt : List Nat) : List Nat :=
  let input := password.toList.map Char.toNat ++ salt
  (List.range 64).map (fun i =>
    input.foldl (fun acc b => (acc * 31 + b + i + 1) % 256) (i % 256))

/-- Modelled from the spec: `generateSalt()` of the missing `util/scrypt.js`
— a fixed-length (16-byte) random salt; the random source is modelled by an
explicit entropy argument. -/
def generateSalt (entropy : Nat) : List Nat :=
  (List.range 16).map (fun i => entropy / 256 ^ i % 256)

/-- Node's `crypto.timingSafeEqual(a, b)`: returns whether the two byte
sequences are equal when they have the same length, and throws a
`RangeError` otherwise.  The throw is modelled as `Except.error` with the
Node error message. -/
def timingSafeEqual (a b : List Nat) : Except String Bool :=
  if a.length = b.length then Except.ok (decide (a = b))
  else Except.error "RangeError: Input buffers must have the same byte length"

/-- The generic credential-rejection message used by the verify callback for
both the unknown-user and the wrong-password branch. -/
def authFailureMessage : String := "ユーザ名かパスワードが違います"

/-- The message of the `RangeError` thrown by `timingSafeEqual` on byte
sequences of different lengths. -/
def rangeErrorMessage : String :=
  "RangeError: Input buffers must have the same byte length"

/-- Outcome of the `LocalStrategy` verify callback: `cb(e)` on a caught
exception, `cb(null, false, {message})` on credential rejection,
`cb(null, user)` on success. -/
inductive VerifyResult where
  | error (e : String)
  | failure (message : String)
  | success (user : User)
deriving DecidableEq

/-- `prisma.user.findUnique({where: {name: username}})`: the record whose
unique `name` equals `username`, if any.  The store is modelled as a list of
records; `find?` returns the (unique) match. -/
def findUnique (db : List User) (username : String) : Option User :=
  db.find? (fun u => u.name == username)

/-- The body of the verify callback after a successful lookup (lines 84-92):
recompute the digest with the stored salt, compare with `timingSafeEqual`,
reject on mismatch, succeed otherwise; a throw from `timingSafeEqual` is
caught by the surrounding `try`/`catch` and reported via `cb(e)`. -/
def verifyUser (user : User) (password : String) : VerifyResult :=
  let hashedPassword := calcHash password user.salt
  match timingSafeEqual user.password hashedPassword with
  | Except.error e => VerifyResult.error e
  | Except.ok ok =>
      if !ok then VerifyResult.failure authFailureMessage
      else VerifyResult.success user

/-- The verify callback (lines 75-96) as a function of the lookup outcome:
a throw from the lookup is caught and reported via `cb(e)`; a missing user
is rejected with the generic message; otherwise verification proceeds. -/
def verifyWithLookup (lookup : Except String (Option User)) (password : String) :
    VerifyResult :=
  match lookup with
  | Except.error e => VerifyResult.error e
  | Except.ok none => VerifyResult.failure authFailureMessage
  | Except.ok (some user) => verifyUser user password

/-- The verify callback run against a store in which the lookup does not
throw. -/
def verify (db : List User) (username password : String) : VerifyResult :=
  verifyWithLookup (Except.ok (findUnique db username)) password

/-- `passport.serializeUser` (lines 100-104): project `id` and `name`. -/
def serializeUser (u : User) : SessionPrincipal :=
  { id := u.id, name := u.name }

/-- `passport.deserializeUser` (lines 107-111): return the stored session
record unchanged. -/
def deserializeUser (p : SessionPrincipal) : SessionPrincipal := p

/-- Whether a verify outcome is an acceptance (`cb(null, user)`). -/
def acceptance : VerifyResult → Bool
  | VerifyResult.success _ => true
  | _ => false

/-- The fields of a `POST /signup` request body that the handler reads;
`none` models an absent form field. -/
structure SignupBody where
  name : Option String
  password : Option String
  email : Option String
  age : Option String
deriving DecidableEq

/-- express-validator hands validators the field's value, with an absent
field coerced to the empty string. -/
def fieldValue (v : Option String) : String := v.getD ""

/-- express-validator's `.notEmpty()`: the value has nonzero length. -/
def notEmpty (s : String) : Bool := !s.toList.isEmpty

/-- Split a character list at each occurrence of the separator. -/
def splitOn (sep : Char) : List Char → List (List Char)
  | [] => [[]]
  | c :: cs =>
      let r := splitOn sep cs
      if c == sep then [] :: r
      else
        match r with
        | [] => [[c]]
        | h :: t => (c :: h) :: t

/-- express-validator's `.isEmail()` (validator.js), modelled: one `@`
separating a nonempty local part from a nonempty domain that contains a dot
and neither starts nor ends with one.  Only the behaviour on the inputs used
in this file matters; in particular the empty string is not an email. -/
def isEmailStr (s : String) : Bool :=
  match splitOn '@' s.toList with
  | [lp, dp] =>
      !lp.isEmpty && !dp.isEmpty && dp.contains '.' &&
        dp.head? != some '.' && dp.getLast? != some '.'
  | _ => false

/-- express-validator's `.isInt()` (validator.js), modelled: an optional
sign followed by one or more digits. -/
def isIntStr (s : String) : Bool :=
  let t :=
    match s.toList with
    | c :: rest => if c == '+' || c == '-' then rest else c :: rest
    | [] => []
  !t.isEmpty && t.all Char.isDigit

/-- Validation messages of the signup chain (lines 159-164). -/
def nameRequiredMessage : String := "NAME は必ず入力してください。"

/-- Message of `check("password").notEmpty()`. -/
def passwordRequiredMessage : String := "PASSWORD は必ず入力してください。"

/-- Message of `check("email").isEmail()`. -/
def emailFormatMessage : String := "EMAIL はメールアドレスを入力してください。"

/-- Message of `check("age").isInt()`. -/
def ageIntMessage : String := "AGE は整数で入力してください。"

/-- The signup validation chain (lines 159-164): `name` and `password` must
be nonempty, `email` must be an email, `age` must be an integer.  None of
the checks is marked `.optional()`, so each one also runs on an absent
field.  The result is `validationResult(req).array()`: the list of
`(field, message)` errors in chain order. -/
def signupValidation (b : SignupBody) : List (String × String) :=
  (if notEmpty (fieldValue b.name) then [] else [("name", nameRequiredMessage)]) ++
  (if notEmpty (fieldValue b.password) then [] else [("password", passwordRequiredMessage)]) ++
  (if isEmailStr (fieldValue b.email) then [] else [("email", emailFormatMessage)]) ++
  (if isIntStr (fieldValue b.age) then [] else [("age", ageIntMessage)])

/-- JavaScript's unary `+` on the age string (`+age` at line 190), modelled
for the strings accepted by `isIntStr`: an optional sign and digits. -/
def jsToNumber (s : String) : Int :=
  let digitsVal : List Char → Nat :=
    fun t => t.foldl (fun acc c => acc * 10 + (c.toNat - 48)) 0
  match s.toList with
  | '-' :: rest => -(digitsVal rest : Int)
  | '+' :: rest => (digitsVal rest : Int)
  | cs => (digitsVal cs : Int)

/-- What the signup handler does with a request: re-render the form with the
submitted `name`/`email`/`age` and the error messages, or redirect. -/
inductive SignupOutcome where
  | render (title : String) (name email age : Option String)
      (messages : List (String × String))
  | redirect (path : String)
deriving DecidableEq

/-- The record passed to `prisma.user.create` on validation success (lines
181-192): the submitted `name`, the digest of the submitted password under a
fresh salt, that same salt, the submitted `email`, and `+age`. -/
def mkSignupUser (nextId entropy : Nat) (b : SignupBody) : User :=
  let salt := generateSalt entropy
  { id := nextId
    name := fieldValue b.name
    password := calcHash (fieldValue b.password) salt
    salt := salt
    email := some (fieldValue b.email)
    age := some (jsToNumber (fieldValue b.age)) }

/-- The `POST /signup` handler (lines 159-194): on validation failure,
re-render `Users/Signup` with the submitted values and the error list and
leave the store untouched; on success, create one record and redirect to
`/users/login`.  `nextId` is the id the store assigns, `entropy` feeds
`generateSalt`. -/
def signupHandler (db : List User) (nextId entropy : Nat) (b : SignupBody) :
    SignupOutcome × List User :=
  let result := signupValidation b
  if result.isEmpty then
    (SignupOutcome.redirect "/users/login", db ++ [mkSignupUser nextId entropy b])
  else
    (SignupOutcome.render "Users/Signup" b.name b.email b.age result, db)

/- Concrete data used by the witnesses. -/

/-- A fixed salt for the witness records. -/
def salt0 : List Nat := generateSalt 12345

/-- A stored record whose digest is the hash of "secret" under `salt0`. -/
def alice : User :=
  { id := 1, name := "alice", password := calcHash "secret" salt0,
    salt := salt0, email := some "a@b.com", age := some 20 }

/-- A second record with the same stored digest and salt as `alice`. -/
def alice2 : User :=
  { id := 3, name := "alice2", password := calcHash "secret" salt0,
    salt := salt0, email := none, age := none }

/-- A store holding `alice`. -/
def db0 : List User := [alice]

/-- A record whose stored digest has only 3 bytes, shorter than any
`calcHash` output. -/
def mallory : User :=
  { id := 2, name := "mallory", password := [1, 2, 3], salt := [0],
    email := none, age := none }

/-- A store holding `mallory`. -/
def dbShort : List User := [mallory]

/-- A signup body missing the `name` field. -/
def bodyNoName : SignupBody :=
  { name := none, password := some "secret", email := some "a@b.com",
    age := some "20" }

/-- A signup body with all four fields present and valid. -/
def bodyValid : SignupBody :=
  { name := some "carol", password := some "secret", email := some "c@d.com",
    age := some "30" }

/-- A signup body with `name` and `password` present and nonempty but
`email` and `age` absent. -/
def bodyMissingOptional : SignupBody :=
  { name := some "alice", password := some "secret", email := none,
    age := none }

set_option maxRecDepth 40000

/-- Claim C1: when a record with the submitted username exists and the
digest of the submitted password under the record's salt equals the stored
digest, the verify callback succeeds with that record, and the serialized
session principal carries exactly its `id` and `name`. -/
theorem verify_correct_credentials (db : List User) (username password : String)
    (u : User) (hfind : findUnique db username = some u)
    (hhash : calcHash password u.salt = u.password) :
    verify db username password = VerifyResult.success u ∧
    serializeUser u = { id := u.id, name := u.name } := by
  refine ⟨?_, rfl⟩
  simp [verify, verifyWithLookup, hfind, verifyUser, hhash, timingSafeEqual]

/-- Witness for C1: `alice` with the correct password. -/
theorem verify_correct_credentials_witness :
    findUnique db0 "alice" = some alice ∧
    calcHash "secret" alice.salt = alice.password ∧
    (verify db0 "alice" "secret" = VerifyResult.success alice ∧
     serializeUser alice = { id := alice.id, name := alice.name }) :=
  ⟨by decide, rfl,
   verify_correct_credentials db0 "alice" "secret" alice (by decide) rfl⟩

/-- Claim C2: the rejection produced when no record with the submitted
username exists and the rejection produced when the record exists but the
recomputed digest differs from the stored one (at equal digest length, so
the comparison does not throw) are the same result with the same generic
message. -/
theorem auth_failure_indistinguishable (db1 db2 : List User)
    (n1 p1 n2 p2 : String) (u : User)
    (h1 : findUnique db1 n1 = none) (h2 : findUnique db2 n2 = some u)
    (hlen : (calcHash p2 u.salt).length = u.password.length)
    (hne : calcHash p2 u.salt ≠ u.password) :
    verify db1 n1 p1 = VerifyResult.failure authFailureMessage ∧
    verify db2 n2 p2 = VerifyResult.failure authFailureMessage := by
  constructor
  · simp [verify, verifyWithLookup, h1]
  · have hne2 : u.password ≠ calcHash p2 u.salt := fun h => hne h.symm
    simp [verify, verifyWithLookup, h2, verifyUser, timingSafeEqual,
      hlen.symm, hne2]

/-- Witness for C2: an unknown username and a wrong password against `db0`
produce the identical failure. -/
theorem auth_failure_indistinguishable_witness :
    findUnique db0 "bob" = none ∧ findUnique db0 "alice" = some alice ∧
    calcHash "wrong" alice.salt ≠ alice.password ∧
    (verify db0 "bob" "x" = VerifyResult.failure authFailureMessage ∧
     verify db0 "alice" "wrong" = VerifyResult.failure authFailureMessage) :=
  ⟨by decide, by decide, by decide,
   auth_failure_indistinguishable db0 db0 "bob" "x" "alice" "wrong" alice
     (by decide) (by decide) (by decide) (by decide)⟩

/-- Claim C3: restoring the serialized form of any record yields a principal
with the record's `id` and `name`, and `deserializeUser` is the identity
with no re-fetch. -/
theorem restore_roundtrip :
    (∀ u : User,
      deserializeUser (serializeUser u) = { id := u.id, name := u.name }) ∧
    (∀ p : SessionPrincipal, deserializeUser p = p) :=
  ⟨fun _ => rfl, fun _ => rfl⟩

/-- Claim C4: when the signup validation chain reports errors, the handler
re-renders the form with those error messages and the submitted values, and
the store is unchanged. -/
theorem signup_validation_failure (db : List User) (nextId entropy : Nat)
    (b : SignupBody) (h : signupValidation b ≠ []) :
    signupHandler db nextId entropy b =
      (SignupOutcome.render "Users/Signup" b.name b.email b.age
        (signupValidation b), db) := by
  have hif : (signupValidation b).isEmpty = false := by
    cases hv : signupValidation b with
    | nil => exact absurd hv h
    | cons a l => simp
  simp [signupHandler, hif]

/-- Witness for C4: a body with a missing `name`. -/
theorem signup_validation_failure_witness :
    signupValidation bodyNoName ≠ [] ∧
    signupHandler db0 2 0 bodyNoName =
      (SignupOutcome.render "Users/Signup" bodyNoName.name bodyNoName.email
        bodyNoName.age (signupValidation bodyNoName), db0) :=
  ⟨by decide, signup_validation_failure db0 2 0 bodyNoName (by decide)⟩

/-- Claim C5: when validation passes, the handler appends exactly one new
record whose `password` is the digest of the submitted password under the
freshly generated salt, whose `salt` is that same salt, and redirects to the
login form. -/
theorem signup_success (db : List User) (nextId entropy : Nat) (b : SignupBody)
    (h : signupValidation b = []) :
    signupHandler db nextId entropy b =
      (SignupOutcome.redirect "/users/login",
       db ++ [mkSignupUser nextId entropy b]) ∧
    (mkSignupUser nextId entropy b).name = fieldValue b.name ∧
    (mkSignupUser nextId entropy b).password =
      calcHash (fieldValue b.password) (generateSalt entropy) ∧
    (mkSignupUser nextId entropy b).salt = generateSalt entropy := by
  refine ⟨?_, rfl, rfl, rfl⟩
  simp [signupHandler, h]

/-- Witness for C5: a fully valid body. -/
theorem signup_success_witness :
    signupValidation bodyValid = [] ∧
    (signupHandler db0 2 999 bodyValid =
      (SignupOutcome.redirect "/users/login",
       db0 ++ [mkSignupUser 2 999 bodyValid]) ∧
     (mkSignupUser 2 999 bodyValid).name = fieldValue bodyValid.name ∧
     (mkSignupUser 2 999 bodyValid).password =
       calcHash (fieldValue bodyValid.password) (generateSalt 999) ∧
     (mkSignupUser 2 999 bodyValid).salt = generateSalt 999) :=
  ⟨by decide, signup_success db0 2 999 bodyValid (by decide)⟩

/-- Counterexample to claim C6 as stated: with `name` and `password` present
and nonempty but `email` and `age` absent, validation does not succeed — it
reports errors for `email` and `age` — and no record is created. -/
theorem email_age_required_counterexample :
    signupValidation bodyMissingOptional =
      [("email", emailFormatMessage), ("age", ageIntMessage)] ∧
    (signupHandler db0 2 0 bodyMissingOptional).2 = db0 := by
  constructor
  · decide
  · rfl

/-- Claim C6 (amended): `email` and `age` are required by the signup
validation chain — on a body whose `name` and `password` are present and
nonempty but whose `email` and `age` are absent, validation fails with
exactly the `email` and `age` errors and no record is created. -/
theorem email_age_required (db : List User) (nextId entropy : Nat)
    (b : SignupBody)
    (hname : notEmpty (fieldValue b.name) = true)
    (hpass : notEmpty (fieldValue b.password) = true)
    (hemail : b.email = none) (hage : b.age = none) :
    signupValidation b =
      [("email", emailFormatMessage), ("age", ageIntMessage)] ∧
    (signupHandler db nextId entropy b).2 = db := by
  have he : isEmailStr "" = false := by decide
  have ha : isIntStr "" = false := by decide
  simp only [fieldValue] at hname hpass
  have hval : signupValidation b =
      [("email", emailFormatMessage), ("age", ageIntMessage)] := by
    simp [signupValidation, fieldValue, hname, hpass, hemail, hage, he, ha]
  refine ⟨hval, ?_⟩
  simp [signupHandler, hval]

/-- Witness for C6 (amended): `bodyMissingOptional` against `db0`. -/
theorem email_age_required_witness :
    notEmpty (fieldValue bodyMissingOptional.name) = true ∧
    notEmpty (fieldValue bodyMissingOptional.password) = true ∧
    bodyMissingOptional.email = none ∧ bodyMissingOptional.age = none ∧
    (signupValidation bodyMissingOptional =
       [("email", emailFormatMessage), ("age", ageIntMessage)] ∧
     (signupHandler db0 2 0 bodyMissingOptional).2 = db0) :=
  ⟨by decide, by decide, rfl, rfl,
   email_age_required db0 2 0 bodyMissingOptional (by decide) (by decide)
     rfl rfl⟩

/-- Claim C7: a fault thrown during the lookup is reported through the
error-first callback argument, which is a different constructor from the
generic credential rejection; a fault thrown during the digest comparison is
likewise reported through the error path. -/
theorem lookup_fault_propagates (e : String) (password : String) :
    verifyWithLookup (Except.error e) password = VerifyResult.error e ∧
    (∀ m, VerifyResult.error e ≠ VerifyResult.failure m) ∧
    (∀ u : User, ∀ e2 : String,
       timingSafeEqual u.password (calcHash password u.salt) =
         Except.error e2 →
       verifyUser u password = VerifyResult.error e2) := by
  refine ⟨rfl, fun _ h => VerifyResult.noConfusion h, ?_⟩
  intro u e2 h
  simp [verifyUser, h]

/-- Witness for C7: a lookup fault, and a comparison throw for `mallory`. -/
theorem lookup_fault_propagates_witness :
    verifyWithLookup (Except.error "db down") "x" =
      VerifyResult.error "db down" ∧
    timingSafeEqual mallory.password (calcHash "x" mallory.salt) =
      Except.error rangeErrorMessage ∧
    verifyUser mallory "x" = VerifyResult.error rangeErrorMessage :=
  ⟨(lookup_fault_propagates "db down" "x").1, by rfl,
   (lookup_fault_propagates "db down" "x").2.2 mallory rangeErrorMessage
     (by rfl)⟩

/-- Claim C8: password material is confined — `calcHash` outputs a
fixed-length digest; the signup handler either leaves the store unchanged or
appends the one record whose stored `password` is the digest of the
submitted password; the serialized principal is exactly `id` and `name` and
is unchanged under any change to the `password`, `salt`, `email` or `age`
fields; and the accept/reject decision of the verify callback depends only
on the stored digest and the recomputed digest. -/
theorem password_material_confinement :
    (∀ p : String, ∀ s : List Nat, (calcHash p s).length = 64) ∧
    (∀ db : List User, ∀ nextId entropy : Nat, ∀ b : SignupBody,
       (signupHandler db nextId entropy b).2 = db ∨
       (signupHandler db nextId entropy b).2 =
         db ++ [mkSignupUser nextId entropy b]) ∧
    (∀ nextId entropy : Nat, ∀ b : SignupBody,
       (mkSignupUser nextId entropy b).password =
         calcHash (fieldValue b.password) (generateSalt entropy)) ∧
    (∀ u : User, serializeUser u = { id := u.id, name := u.name }) ∧
    (∀ u : User, ∀ pw s : List Nat, ∀ e : Option String, ∀ a : Option Int,
       serializeUser { u with password := pw, salt := s, email := e, age := a } =
         serializeUser u) ∧
    (∀ u1 u2 : User, ∀ p1 p2 : String, u1.password = u2.password →
       calcHash p1 u1.salt = calcHash p2 u2.salt →
       acceptance (verifyUser u1 p1) = acceptance (verifyUser u2 p2)) := by
  refine ⟨?_, ?_, fun _ _ _ => rfl, fun _ => rfl, fun _ _ _ _ _ => rfl, ?_⟩
  · intro p s; simp [calcHash]
  · intro db nextId entropy b
    cases h : (signupValidation b).isEmpty with
    | true => right; simp [signupHandler, h]
    | false => left; simp [signupHandler, h]
  · intro u1 u2 p1 p2 hpw hh
    simp only [verifyUser, hpw, hh]
    cases timingSafeEqual u2.password (calcHash p2 u2.salt) with
    | error e => rfl
    | ok ok => cases ok <;> rfl

/-- Witness for C8: `alice` and `alice2` share the stored digest and the
salt, so the verify decision is the same for both. -/
theorem password_material_confinement_witness :
    alice.password = alice2.password ∧
    calcHash "secret" alice.salt = calcHash "secret" alice2.salt ∧
    acceptance (verifyUser alice "secret") =
      acceptance (verifyUser alice2 "secret") :=
  ⟨rfl, rfl,
   password_material_confinement.2.2.2.2.2 alice alice2 "secret" "secret"
     rfl rfl⟩

/-- Claim C10: when the stored digest's byte length differs from the
recomputed digest's, the comparison throws, the exception is caught, and the
attempt resolves through the error path, not as the generic rejection. -/
theorem digest_length_mismatch_error (db : List User)
    (username password : String) (u : User)
    (hfind : findUnique db username = some u)
    (hlen : u.password.length ≠ (calcHash password u.salt).length) :
    verify db username password = VerifyResult.error rangeErrorMessage ∧
    (∀ m, verify db username password ≠ VerifyResult.failure m) := by
  have h : verify db username password = VerifyResult.error rangeErrorMessage := by
    simp [verify, verifyWithLookup, hfind, verifyUser, timingSafeEqual, hlen,
      rangeErrorMessage]
  exact ⟨h, fun m hc => by rw [h] at hc; exact VerifyResult.noConfusion hc⟩

/-- Witness for C10: `mallory` has a 3-byte stored digest while `calcHash`
produces 64 bytes. -/
theorem digest_length_mismatch_error_witness :
    findUnique dbShort "mallory" = some mallory ∧
    mallory.password.length ≠ (calcHash "anything" mallory.salt).length ∧
    (verify dbShort "mallory" "anything" =
       VerifyResult.error rangeErrorMessage ∧
     (∀ m, verify dbShort "mallory" "anything" ≠ VerifyResult.failure m)) :=
  ⟨by decide, by decide,
   digest_length_mismatch_error dbShort "mallory" "anything" mallory
     (by decide) (by decide)⟩

end NodeMsg
